import Mathlib

/-!
Shallow embedding of the Arrowhead client-library core
(`src/arrowhead_client/client/client_core.py` and
`src/arrowhead_client/implementations/fastapi_provider.py`) and proofs of the
spec claims about it.

Python dictionaries are embedded as association lists with Python's
assignment semantics (update in place, append new keys at the end);
Python exceptions become an `Except PyError` result; the network is an
oracle parameter mapping a request to the response the coordination
service returns.
-/

namespace Arrowhead

/-- `ServiceInterface` as used by `client_core.py`: only the `secure` field is
inspected by the client core (`interface.secure`). -/
structure ServiceInterface where
  protocol : String
  secure : String
  payload : String
deriving DecidableEq

/-- `arrowhead_client.service.Service` as used by `client_core.py`:
`service_definition`, `service_uri`, `interface`, `access_policy`. -/
structure Service where
  service_definition : String
  service_uri : String
  interface : ServiceInterface
  access_policy : String
deriving DecidableEq

/-- `ArrowheadSystem` identity fields used by the client core. -/
structure ArrowheadSystem where
  system_name : String
  address : String
  port : Nat
deriving DecidableEq

/-- The exceptions raised by the embedded code.  `ValueError` and `KeyError`
are Python builtins (raised at `client_core.py:319` and by the raw dict access
at `client_core.py:71`); the others come from `arrowhead_client.errors`.
`UnknownServiceError` and `OrchestrationProtocolError` appear in the spec's
error vocabulary (spec §7) and are included so that claims naming them can be
stated; the code under `src/` never raises them. -/
inductive PyError where
  | NotAuthorizedError (msg : String)
  | CoreServiceNotAvailableError (name : Option String)
  | NoAvailableServicesError (msg : String)
  | CouldNotRegisterServiceError (service_definition msg : String)
  | CouldNotUnregisterServiceError (service_definition msg : String)
  | ValueError (msg : String)
  | KeyError (key : String)
  | UnknownServiceError (msg : String)
  | OrchestrationProtocolError (msg : String)
deriving DecidableEq

/-- Python dict read `d[k]`: first (unique) entry with key `k`. -/
def dictGet {α : Type} (d : List (String × α)) (k : String) : Option α :=
  match d with
  | [] => none
  | (k', v) :: rest => if k' = k then some v else dictGet rest k

/-- Python dict assignment `d[k] = v`: overwrite in place if `k` is present,
append at the end otherwise. -/
def dictInsert {α : Type} (d : List (String × α)) (k : String) (v : α) :
    List (String × α) :=
  match d with
  | [] => [(k, v)]
  | (k', v') :: rest =>
      if k' = k then (k, v) :: rest else (k', v') :: dictInsert rest k v

/-- The value type of `ArrowheadClient._consumed_services`
(`StoredConsumedService`, `client_core.py:16`): the stored 4-tuple
`(service, system, http_method, authorization_token)`. -/
abbrev ConsumedTuple := Service × ArrowheadSystem × String × Option String

/-- The `_consumed_services` catalog. -/
abbrev ConsumedDict := List (String × ConsumedTuple)

/-- `ArrowheadClient._store_consumed_service` (`client_core.py:234-254`):
store the 4-tuple under the key `service.service_definition` of the service
being stored. -/
def store_consumed_service (st : ConsumedDict) (service : Service)
    (system : ArrowheadSystem) (http_method : String)
    (authorization_token : Option String := none) : ConsumedDict :=
  dictInsert st service.service_definition
    (service, system, http_method, authorization_token)

/-- The arguments `ArrowheadClient.consume_service` passes to
`self.consumer.consume_service` (`client_core.py:78-82`), with
`cert_attached` recording whether the `cert` keyword was added
(done exactly when `consumed_service.interface.secure == 'SECURE'`). -/
structure ConsumerCall where
  service : Service
  system : ArrowheadSystem
  method : String
  token : Option String
  cert_attached : Bool
deriving DecidableEq

/-- `ArrowheadClient.consume_service` (`client_core.py:62-82`): a raw dict
access `self._consumed_services[service_definition]` (KeyError on a miss),
then delegation to the consumer collaborator. -/
def consume_service (st : ConsumedDict) (service_definition : String) :
    Except PyError ConsumerCall :=
  match dictGet st service_definition with
  | none => .error (.KeyError service_definition)
  | some (consumed_service, provider_system, method, auth_token) =>
      .ok { service := consumed_service
            system := provider_system
            method := method
            token := auth_token
            cert_attached := consumed_service.interface.secure = "SECURE" }

/-- The security-level decision of `ArrowheadClient._register_service`
(`client_core.py:264-270`). -/
def security_level (service : Service) : String :=
  if service.interface.secure = "INSECURE" then "NOT_SECURE"
  else if service.interface.secure = "SECURE" then "CERTIFICATE"
  else "CERTIFICATE"

/-- A coordination-service response as the client core reads it: a status
code and the `errorMessage` field of the parsed payload. -/
structure CoreResponse where
  status_code : Nat
  errorMessage : String
deriving DecidableEq

/-- An orchestrator response as `add_consumed_service` reads it: status code,
the `errorMessage` field of the payload, and the candidate list the response
parser extracts, each candidate carrying `(service, provider_system, token)`. -/
structure OrchestrationResponse where
  status_code : Nat
  errorMessage : String
  candidates : List (Service × ArrowheadSystem × Option String)
deriving DecidableEq

/-- Modelled from the spec: `core_service_responses.process_orchestration_response`
is not under `src/`.  Spec §4.2 step 3: a response with a non-empty candidate
list yields the candidates, of which the caller takes the first; an empty
candidate list fails with `NoAvailableServicesError`.  Returned as
head-and-rest to mirror the Python destructuring `(s, p, t), *_ = ...`. -/
def process_orchestration_response (resp : OrchestrationResponse) :
    Except PyError
      ((Service × ArrowheadSystem × Option String)
        × List (Service × ArrowheadSystem × Option String)) :=
  match resp.candidates with
  | [] => .error (.NoAvailableServicesError "No services available")
  | c :: cs => .ok (c, cs)

/-- `ArrowheadClient.add_consumed_service` (`client_core.py:87-127`), from the
point where the orchestrator's response is in hand (the response is the
network oracle's answer to the POST built from `service_definition`):
401 raises `NotAuthorizedError` with the payload's `errorMessage`, 500 raises
`CoreServiceNotAvailableError('orchestration')`; otherwise the response is
parsed, a `NoAvailableServicesError` is caught and printed (the state is
returned unchanged), and on a parsed candidate the first one is stored via
`_store_consumed_service`.  The `service_definition` argument is kept to
state claims about the requested definition; the code never uses it as the
storage key. -/
def add_consumed_service (st : ConsumedDict) (service_definition : String)
    (method : String) (resp : OrchestrationResponse) :
    Except PyError ConsumedDict :=
  if resp.status_code = 401 then
    .error (.NotAuthorizedError resp.errorMessage)
  else if resp.status_code = 500 then
    .error (.CoreServiceNotAvailableError (some "orchestration"))
  else
    match process_orchestration_response resp with
    | .error (.NoAvailableServicesError _) => .ok st
    | .error e => .error e
    | .ok ((orchestrated_service, provider_system, token), _) =>
        .ok (store_consumed_service st orchestrated_service provider_system
              method token)

/-- `ArrowheadClient._register_service` (`client_core.py:256-296`): the
security level is decided (see `security_level`), the registration form is
POSTed to the service registry (the oracle's response is `resp`), then
400 raises `CouldNotRegisterServiceError(definition, errorMessage)`,
401 raises `NotAuthorizedError` (without a message), and 500 raises
`CoreServiceNotAvailableError('Service Registry')`. -/
def register_service (service : Service) (resp : CoreResponse) :
    Except PyError Unit :=
  if resp.status_code = 400 then
    .error (.CouldNotRegisterServiceError service.service_definition
      resp.errorMessage)
  else if resp.status_code = 401 then
    .error (.NotAuthorizedError "")
  else if resp.status_code = 500 then
    .error (.CoreServiceNotAvailableError (some "Service Registry"))
  else
    .ok ()

/-- `ArrowheadClient._register_all_services` (`client_core.py:298-306`):
iterate the declared provided services; only `CouldNotRegisterServiceError`
is caught (and printed); any other exception propagates, aborting the loop.
The registry oracle maps a service definition to the registry's response.
Returns the definitions registered without error, the caught (printed)
failures, and the uncaught exception when the loop aborted. -/
def register_all_services (services : List Service)
    (registry : String → CoreResponse) :
    List String × List PyError × Option PyError :=
  match services with
  | [] => ([], [], none)
  | s :: rest =>
      match register_service s (registry s.service_definition) with
      | .ok _ =>
          let (regs, errs, ab) := register_all_services rest registry
          (s.service_definition :: regs, errs, ab)
      | .error (.CouldNotRegisterServiceError d msg) =>
          let (regs, errs, ab) := register_all_services rest registry
          (regs, .CouldNotRegisterServiceError d msg :: errs, ab)
      | .error e => ([], [], some e)

/-- `ArrowheadClient._unregister_service` (`client_core.py:308-343`):
`provided` models `self._provided_services.keys()`.  A definition never
declared provided raises the Python builtin `ValueError` (carrying the
definition; the source interpolates it into the message) before any network
call; otherwise the unregistration request is issued and 400 raises
`CouldNotUnregisterServiceError`, 401 `NotAuthorizedError`, 500
`CoreServiceNotAvailableError` (with no argument).  The second component
lists the network requests issued to the `unregister` core service. -/
def unregister_service (provided : List String) (service : Service)
    (registry : String → CoreResponse) :
    Except PyError Unit × List String :=
  if service.service_definition ∉ provided then
    (.error (.ValueError service.service_definition), [])
  else
    let resp := registry service.service_definition
    (if resp.status_code = 400 then
      .error (.CouldNotUnregisterServiceError service.service_definition
        resp.errorMessage)
    else if resp.status_code = 401 then
      .error (.NotAuthorizedError "")
    else if resp.status_code = 500 then
      .error (.CoreServiceNotAvailableError none)
    else .ok (), [service.service_definition])

/-- The observable actions of `run_forever`. -/
inductive RunEvent where
  | fetchPublickey
  | initializeServices
  | registerAll
  | serveLoop
  | unregisterAll
deriving DecidableEq

/-- How one step of the `run_forever` body ends: normal completion, an
external interrupt (`KeyboardInterrupt`), or a raised exception. -/
inductive StepOutcome where
  | ok
  | keyboardInterrupt
  | raised (e : PyError)
deriving DecidableEq

/-- Run the body steps in order until the first one that does not complete
normally; return the events that occurred and the body's outcome. -/
def runSteps (steps : List (RunEvent × StepOutcome)) :
    List RunEvent × StepOutcome :=
  match steps with
  | [] => ([], .ok)
  | (ev, out) :: rest =>
      match out with
      | .ok =>
          let (tr, o) := runSteps rest
          (ev :: tr, o)
      | o => ([ev], o)

/-- `ArrowheadClient.run_forever` (`client_core.py:166-185`): the `try` body
fetches the authorization public key, initializes the provided services,
registers them all, and enters the provider's blocking serve loop;
`except KeyboardInterrupt` swallows an interrupt; the `finally` clause runs
`_unregister_all_services` on every path.  Each body step's outcome is a
parameter.  Returns the events that occurred, with the finally clause last,
and the overall result (an uncaught exception propagates after the finally
clause has run). -/
def run_forever (keyOut initOut regOut serveOut : StepOutcome) :
    List RunEvent × Except PyError Unit :=
  ((runSteps [(.fetchPublickey, keyOut), (.initializeServices, initOut),
      (.registerAll, regOut), (.serveLoop, serveOut)]).1
    ++ [.unregisterAll],
   match (runSteps [(.fetchPublickey, keyOut), (.initializeServices, initOut),
      (.registerAll, regOut), (.serveLoop, serveOut)]).2 with
   | .ok => .ok ()
   | .keyboardInterrupt => .ok ()
   | .raised e => .error e)

/-- Python `str.strip('/')`: remove all leading and trailing `/`
characters (`fastapi_provider.py:24`). -/
def stripSlashes (s : String) : String :=
  ⟨((s.toList.dropWhile (· = '/')).reverse.dropWhile (· = '/')).reverse⟩

/-- The class of an access policy object; the middleware only tests
membership in `TokenAccessPolicy`. -/
inductive AccessPolicyKind where
  | unsecured
  | certificate
  | token
deriving DecidableEq

/-- The fields of `arrowhead_client.rules.RegistrationRule` read by the
middleware: the class of its access policy (tested with
`isinstance(..., TokenAccessPolicy)`) and its `is_authorized` predicate. -/
structure RegistrationRule where
  access_policy_kind : AccessPolicyKind
  is_authorized : String → String → Bool

/-- The three ways `dispatch` can answer: hand the request to the next
handler, reject with 501 (token policy unsupported), or reject with 403. -/
inductive DispatchOutcome where
  | next
  | notImplemented501
  | forbidden403
deriving DecidableEq

/-- `ArrowheadAccessPolicyMiddleware.dispatch` (`fastapi_provider.py:23-36`):
strip slashes from the request path; if the stripped path is not a key of
the policy map, call the next handler with no check at all; otherwise reject
a `TokenAccessPolicy` rule with 501, reject with 403 when `is_authorized`
(applied to the hard-coded placeholder credentials of the source) is false,
and otherwise call the next handler. -/
def dispatch (policy_map : List (String × RegistrationRule)) (path : String) :
    DispatchOutcome :=
  match dictGet policy_map (stripSlashes path) with
  | none => .next
  | some rule =>
      if rule.access_policy_kind = .token then .notImplemented501
      else if ¬ rule.is_authorized "consumer_cert" "auth_str" then .forbidden403
      else .next

/- Association-list lemmas used by the catalog claims. -/

theorem dictGet_dictInsert_self {α : Type} (d : List (String × α)) (k : String)
    (v : α) : dictGet (dictInsert d k v) k = some v := by
  induction d with
  | nil => simp [dictInsert, dictGet]
  | cons hd tl ih =>
      obtain ⟨k', v'⟩ := hd
      by_cases h : k' = k
      · simp [dictInsert, dictGet, h]
      · simp [dictInsert, dictGet, h, ih]

theorem dictGet_dictInsert_ne {α : Type} (d : List (String × α)) (k j : String)
    (v : α) (h : j ≠ k) : dictGet (dictInsert d k v) j = dictGet d j := by
  induction d with
  | nil => simp [dictInsert, dictGet, Ne.symm h]
  | cons hd tl ih =>
      obtain ⟨k', v'⟩ := hd
      by_cases hk : k' = k
      · subst hk
        simp [dictInsert, dictGet, Ne.symm h]
      · simp [dictInsert, dictGet, hk, ih]

/-- C7: a lookup after a store returns exactly the stored tuple; a second
store with the same service definition completely replaces the first
(last-write-wins, no merge); entries under other definitions are unchanged
by either store. -/
theorem consumed_catalog_store_lookup
    (st : ConsumedDict) (svc svc' : Service) (sys sys' : ArrowheadSystem)
    (m m' : String) (tok tok' : Option String) (d : String) :
    dictGet (store_consumed_service st svc sys m tok) svc.service_definition
        = some (svc, sys, m, tok)
    ∧ (svc'.service_definition = svc.service_definition →
        dictGet (store_consumed_service
            (store_consumed_service st svc sys m tok) svc' sys' m' tok')
          svc.service_definition = some (svc', sys', m', tok'))
    ∧ (d ≠ svc.service_definition →
        dictGet (store_consumed_service st svc sys m tok) d = dictGet st d)
    ∧ (d ≠ svc.service_definition → d ≠ svc'.service_definition →
        dictGet (store_consumed_service
            (store_consumed_service st svc sys m tok) svc' sys' m' tok') d
          = dictGet st d) := by
  refine ⟨?_, ?_, ?_, ?_⟩
  · exact dictGet_dictInsert_self ..
  · intro h
    unfold store_consumed_service
    rw [h]
    exact dictGet_dictInsert_self ..
  · intro h
    exact dictGet_dictInsert_ne _ _ _ _ h
  · intro h h'
    unfold store_consumed_service
    rw [dictGet_dictInsert_ne _ _ _ _ h', dictGet_dictInsert_ne _ _ _ _ h]

/-- Witness for C7 at concrete inputs. -/
theorem consumed_catalog_store_lookup_witness :
    let svc : Service := ⟨"echo", "echo", ⟨"HTTP", "SECURE", "JSON"⟩, "CERTIFICATE"⟩
    let svc' : Service := ⟨"echo", "echo2", ⟨"HTTP", "INSECURE", "JSON"⟩, "NOT_SECURE"⟩
    let sys : ArrowheadSystem := ⟨"sysA", "127.0.0.1", 80⟩
    let sys' : ArrowheadSystem := ⟨"sysB", "127.0.0.2", 81⟩
    dictGet (store_consumed_service [] svc sys "GET" none) "echo"
        = some (svc, sys, "GET", none)
    ∧ dictGet (store_consumed_service
          (store_consumed_service [] svc sys "GET" none) svc' sys' "PUT" (some "t"))
        "echo" = some (svc', sys', "PUT", some "t")
    ∧ dictGet (store_consumed_service [] svc sys "GET" none) "hello" = dictGet [] "hello" := by
  intro svc svc' sys sys'
  have h := consumed_catalog_store_lookup [] svc svc' sys sys' "GET" "PUT" none
    (some "t") "hello"
  exact ⟨h.1, h.2.1 (by decide), h.2.2.1 (by decide)⟩

/-- C8: the wire-level security classification is `NOT_SECURE` exactly for
`interface.secure = 'INSECURE'`; `'SECURE'` and every other value map to
`'CERTIFICATE'`. -/
theorem security_level_mapping (service : Service) :
    (security_level service = "NOT_SECURE" ↔ service.interface.secure = "INSECURE")
    ∧ (service.interface.secure = "SECURE" →
        security_level service = "CERTIFICATE")
    ∧ (service.interface.secure ≠ "INSECURE" →
        security_level service = "CERTIFICATE") := by
  unfold security_level
  by_cases h1 : service.interface.secure = "INSECURE"
  · simp [h1]
  · by_cases h2 : service.interface.secure = "SECURE" <;> simp [h1, h2]

/-- Witness for C8 at concrete inputs, one per branch of the mapping. -/
theorem security_level_mapping_witness :
    security_level ⟨"a", "a", ⟨"HTTP", "INSECURE", "JSON"⟩, ""⟩ = "NOT_SECURE"
    ∧ security_level ⟨"a", "a", ⟨"HTTP", "SECURE", "JSON"⟩, ""⟩ = "CERTIFICATE"
    ∧ security_level ⟨"a", "a", ⟨"HTTP", "WEIRD", "JSON"⟩, ""⟩ = "CERTIFICATE" := by
  refine ⟨?_, ?_, ?_⟩
  · exact (security_level_mapping ⟨"a", "a", ⟨"HTTP", "INSECURE", "JSON"⟩, ""⟩).1.mpr rfl
  · exact (security_level_mapping ⟨"a", "a", ⟨"HTTP", "SECURE", "JSON"⟩, ""⟩).2.1 rfl
  · exact (security_level_mapping ⟨"a", "a", ⟨"HTTP", "WEIRD", "JSON"⟩, ""⟩).2.2 (by decide)

/- Sample data used by concrete counterexamples and witnesses. -/

def secureInterface : ServiceInterface := ⟨"HTTP-SECURE-JSON", "SECURE", "JSON"⟩

def helloService : Service := ⟨"hello-arrowhead", "hello", secureInterface, "CERTIFICATE"⟩

def echoService : Service := ⟨"echo", "echo", secureInterface, "CERTIFICATE"⟩

def echoV2Service : Service := ⟨"echo-v2", "v2/echo", secureInterface, "CERTIFICATE"⟩

def providerSystem : ArrowheadSystem := ⟨"provider", "127.0.0.1", 3000⟩

/-- C1 counterexample: an orchestrator response with success status and zero
candidates does NOT raise `NoAvailableServicesError` to the caller of
`add_consumed_service` — the exception is caught inside and printed
(`client_core.py:120-123`), and the operation returns normally with the
catalog unchanged.  `Except.ok` is distinct from every `Except.error`, so the
claimed propagation fails at this input. -/
theorem add_consumed_service_empty_counterexample :
    add_consumed_service [] "echo" "GET" ⟨200, "", []⟩ = Except.ok []
    ∧ (Except.ok [] : Except PyError ConsumedDict)
        ≠ .error (.NoAvailableServicesError "No services available") :=
  ⟨rfl, fun h => Except.noConfusion h⟩

/-- C1 amended: for an orchestrator response with an empty candidate list and
a status other than 401/500, `add_consumed_service` raises the
`NoAvailableServicesError` internally but catches and prints it, returning
normally with the consumed-service catalog unchanged — in particular no
binding for the requested definition is added. -/
theorem add_consumed_service_empty_candidates (st : ConsumedDict)
    (d m : String) (resp : OrchestrationResponse)
    (h401 : resp.status_code ≠ 401) (h500 : resp.status_code ≠ 500)
    (hempty : resp.candidates = []) :
    add_consumed_service st d m resp = .ok st := by
  unfold add_consumed_service process_orchestration_response
  simp [h401, h500, hempty]

/-- Witness for the amended C1 at a concrete response. -/
theorem add_consumed_service_empty_candidates_witness :
    add_consumed_service [] "hello-arrowhead" "GET" ⟨404, "oops", []⟩ = .ok [] :=
  add_consumed_service_empty_candidates [] "hello-arrowhead" "GET"
    ⟨404, "oops", []⟩ (by decide) (by decide) rfl

/-- C2 counterexample: requesting definition `echo` against a response whose
first candidate carries definition `echo-v2` stores the binding under
`echo-v2` (the candidate's definition, `client_core.py:121,127,249`), and a
lookup under the requested key `echo` finds nothing. -/
theorem add_consumed_service_candidate_key_counterexample :
    add_consumed_service [] "echo" "GET"
        ⟨200, "", [(echoV2Service, providerSystem, some "tok")]⟩
      = .ok [("echo-v2", (echoV2Service, providerSystem, "GET", some "tok"))]
    ∧ dictGet [("echo-v2", (echoV2Service, providerSystem, "GET", some "tok"))]
        "echo" = none :=
  ⟨rfl, rfl⟩

/-- C2 amended: a successful resolution stores the binding keyed by the
service definition of the orchestrator's returned first candidate, which
need not equal the requested definition. -/
theorem add_consumed_service_stores_candidate_key (st : ConsumedDict)
    (d m : String) (resp : OrchestrationResponse) (svc : Service)
    (sys : ArrowheadSystem) (tok : Option String)
    (rest : List (Service × ArrowheadSystem × Option String))
    (h401 : resp.status_code ≠ 401) (h500 : resp.status_code ≠ 500)
    (hc : resp.candidates = (svc, sys, tok) :: rest) :
    add_consumed_service st d m resp
      = .ok (dictInsert st svc.service_definition (svc, sys, m, tok)) := by
  unfold add_consumed_service process_orchestration_response
  simp [h401, h500, hc, store_consumed_service]

/-- Witness for the amended C2 at a concrete response. -/
theorem add_consumed_service_stores_candidate_key_witness :
    add_consumed_service [] "echo" "PUT"
        ⟨201, "", [(echoV2Service, providerSystem, none)]⟩
      = .ok (dictInsert [] "echo-v2" (echoV2Service, providerSystem, "PUT", none)) :=
  add_consumed_service_stores_candidate_key [] "echo" "PUT"
    ⟨201, "", [(echoV2Service, providerSystem, none)]⟩ echoV2Service
    providerSystem none [] (by decide) (by decide) rfl

/-- C3 counterexample: consuming a definition absent from the catalog fails
with the Python builtin `KeyError` (raw dict access, `client_core.py:71`),
which is not `UnknownServiceError`. -/
theorem consume_service_missing_counterexample :
    consume_service [] "echo" = .error (.KeyError "echo")
    ∧ PyError.KeyError "echo" ≠ PyError.UnknownServiceError "echo" :=
  ⟨rfl, by decide⟩

/-- C3 amended: for every definition not present in the consumed-service
catalog, `consume_service` fails with `KeyError` on that definition. -/
theorem consume_service_missing_key (st : ConsumedDict) (d : String)
    (h : dictGet st d = none) :
    consume_service st d = .error (.KeyError d) := by
  unfold consume_service
  simp [h]

/-- Witness for the amended C3 at a concrete catalog. -/
theorem consume_service_missing_key_witness :
    consume_service [("hello-arrowhead",
        (helloService, providerSystem, "GET", none))] "echo"
      = .error (.KeyError "echo") :=
  consume_service_missing_key
    [("hello-arrowhead", (helloService, providerSystem, "GET", none))] "echo" rfl

/-- C6 counterexample: an orchestrator response with the unexpected status
404 and a parseable candidate list is accepted silently — the binding is
stored and no `OrchestrationProtocolError` (nor any error) reaches the
caller. -/
theorem orchestration_unexpected_status_counterexample :
    add_consumed_service [] "hello-arrowhead" "GET"
        ⟨404, "not found", [(helloService, providerSystem, none)]⟩
      = .ok [("hello-arrowhead", (helloService, providerSystem, "GET", none))]
    ∧ (Except.ok [("hello-arrowhead", (helloService, providerSystem, "GET", none))]
          : Except PyError ConsumedDict)
        ≠ .error (.OrchestrationProtocolError "not found") :=
  ⟨rfl, fun h => Except.noConfusion h⟩

/-- C6 amended: during resolution, status 401 fails with `NotAuthorizedError`
carrying the payload's `errorMessage` and status 500 fails with
`CoreServiceNotAvailableError('orchestration')` (the spec's
`CoreServiceUnavailableError`); but every other status code raises no error
at all — the response flows into candidate processing, so no
`OrchestrationProtocolError` ever reaches the caller. -/
theorem orchestration_status_mapping (st : ConsumedDict) (d m : String)
    (resp : OrchestrationResponse) :
    (resp.status_code = 401 →
      add_consumed_service st d m resp
        = .error (.NotAuthorizedError resp.errorMessage))
    ∧ (resp.status_code ≠ 401 → resp.status_code = 500 →
      add_consumed_service st d m resp
        = .error (.CoreServiceNotAvailableError (some "orchestration")))
    ∧ (resp.status_code ≠ 401 → resp.status_code ≠ 500 →
      ∀ e : PyError, add_consumed_service st d m resp ≠ .error e) := by
  refine ⟨?_, ?_, ?_⟩
  · intro h
    unfold add_consumed_service
    simp [h]
  · intro h1 h2
    unfold add_consumed_service
    simp [h1, h2]
  · intro h1 h2 e
    unfold add_consumed_service process_orchestration_response
    cases hc : resp.candidates <;> simp [h1, h2, hc]

/-- Witness for the amended C6: the three status branches at concrete
responses. -/
theorem orchestration_status_mapping_witness :
    add_consumed_service [] "echo" "GET" ⟨401, "denied", []⟩
      = .error (.NotAuthorizedError "denied")
    ∧ add_consumed_service [] "echo" "GET" ⟨500, "down", []⟩
      = .error (.CoreServiceNotAvailableError (some "orchestration"))
    ∧ add_consumed_service [] "echo" "GET"
        ⟨418, "", [(echoService, providerSystem, none)]⟩
      ≠ .error (.OrchestrationProtocolError "protocol violation") :=
  ⟨(orchestration_status_mapping [] "echo" "GET" ⟨401, "denied", []⟩).1 rfl,
   (orchestration_status_mapping [] "echo" "GET" ⟨500, "down", []⟩).2.1
     (by decide) rfl,
   (orchestration_status_mapping [] "echo" "GET"
       ⟨418, "", [(echoService, providerSystem, none)]⟩).2.2
     (by decide) (by decide) (.OrchestrationProtocolError "protocol violation")⟩

def serviceA : Service := ⟨"A", "a", secureInterface, "CERTIFICATE"⟩

def serviceB : Service := ⟨"B", "b", secureInterface, "CERTIFICATE"⟩

def serviceC : Service := ⟨"C", "c", secureInterface, "CERTIFICATE"⟩

/-- Registry oracle for the A/B/C scenario in which B fails with 400. -/
def demoRegistry400 : String → CoreResponse := fun d =>
  if d = "B" then ⟨400, "already registered"⟩ else ⟨201, ""⟩

/-- Registry oracle for the A/B/C scenario in which B fails with 401. -/
def demoRegistry401 : String → CoreResponse := fun d =>
  if d = "B" then ⟨401, "unauthorized"⟩ else ⟨201, ""⟩

/-- C4 counterexample: with `{A: succeeds, B: fails with 401, C: succeeds}`,
the uncaught `NotAuthorizedError` for B aborts `_register_all_services`
before C is attempted — only `CouldNotRegisterServiceError` (the 400 case)
is caught by the loop, so not every registration failure is isolated. -/
theorem register_all_aborts_counterexample :
    register_all_services [serviceA, serviceB, serviceC] demoRegistry401
      = (["A"], [], some (.NotAuthorizedError ""))
    ∧ "C" ∉ (register_all_services [serviceA, serviceB, serviceC]
        demoRegistry401).1 := by
  decide

/-- C4 amended: as long as no response has status 401 or 500,
`_register_all_services` attempts every declared service; 400-failures
(`CouldNotRegisterServiceError`) are isolated per service — the services
whose response is not 400 are registered and exactly the 400-failures are
reported.  A 401 or 500 response, however, aborts the remainder of the
batch. -/
theorem register_all_isolates_400 (services : List Service)
    (registry : String → CoreResponse)
    (h : ∀ s ∈ services, (registry s.service_definition).status_code ≠ 401
        ∧ (registry s.service_definition).status_code ≠ 500) :
    register_all_services services registry
      = ((services.filter
            (fun s => (registry s.service_definition).status_code != 400)).map
            (fun s => s.service_definition),
         (services.filter
            (fun s => (registry s.service_definition).status_code == 400)).map
            (fun s => .CouldNotRegisterServiceError s.service_definition
                (registry s.service_definition).errorMessage),
         none) := by
  induction services with
  | nil => simp [register_all_services]
  | cons s rest ih =>
      have hs := h s (List.mem_cons_self s rest)
      have hrest := ih (fun t ht => h t (List.mem_cons_of_mem s ht))
      by_cases h400 : (registry s.service_definition).status_code = 400
      · have hr : register_service s (registry s.service_definition)
            = .error (.CouldNotRegisterServiceError s.service_definition
                (registry s.service_definition).errorMessage) := by
          unfold register_service
          simp [h400]
        simp [register_all_services, hr, hrest, h400]
      · have hr : register_service s (registry s.service_definition)
            = .ok () := by
          unfold register_service
          simp [h400, hs.1, hs.2]
        simp [register_all_services, hr, hrest, h400]

/-- Witness for the amended C4: the spec's concrete scenario
`{A: succeeds, B: fails with 400, C: succeeds}` registers A and C and
reports exactly one failure, for B. -/
theorem register_all_isolates_400_witness :
    register_all_services [serviceA, serviceB, serviceC] demoRegistry400
      = (["A", "C"],
         [.CouldNotRegisterServiceError "B" "already registered"], none) := by
  have h := register_all_isolates_400 [serviceA, serviceB, serviceC]
    demoRegistry400 (by decide)
  rw [h]
  decide

/-- C5 counterexample: unregistering a service whose definition was never
declared provided fails with the Python builtin `ValueError`
(`client_core.py:319`), not `UnknownServiceError`; no network request is
issued. -/
theorem unregister_undeclared_counterexample :
    unregister_service [] echoService (fun _ => ⟨200, ""⟩)
      = (.error (.ValueError "echo"), [])
    ∧ PyError.ValueError "echo" ≠ PyError.UnknownServiceError "echo" :=
  ⟨rfl, by decide⟩

/-- C5 amended: for every service whose definition is not among the declared
provided services, `_unregister_service` fails with `ValueError` (raised
before the registry consumer is invoked) and issues no network call. -/
theorem unregister_undeclared_no_network (provided : List String)
    (service : Service) (registry : String → CoreResponse)
    (h : service.service_definition ∉ provided) :
    unregister_service provided service registry
      = (.error (.ValueError service.service_definition), []) := by
  unfold unregister_service
  simp [h]

/-- Witness for the amended C5 at a concrete catalog. -/
theorem unregister_undeclared_no_network_witness :
    unregister_service ["hello-arrowhead"] echoService (fun _ => ⟨204, ""⟩)
      = (.error (.ValueError "echo"), []) :=
  unregister_undeclared_no_network ["hello-arrowhead"] echoService
    (fun _ => ⟨204, ""⟩) (by decide)

/-- C9: whatever the outcomes of the key fetch, the service initialization,
the batch registration, and the serve loop — normal exit, an external
`KeyboardInterrupt`, or an exception raised partway through startup —
`_unregister_all_services` (the `finally` clause) is among the events of
`run_forever`: the shutdown/unregistration path is never skipped. -/
theorem run_forever_always_unregisters (k i r s : StepOutcome) :
    RunEvent.unregisterAll ∈ (run_forever k i r s).1 := by
  unfold run_forever
  exact List.mem_append_right _ (List.mem_singleton_self _)

/-- C10: an inbound request whose slash-stripped path is not a key of the
provider's policy map is dispatched directly to the next handler — neither
the 501 token-policy rejection nor the 403 `is_authorized` check is
applied. -/
theorem dispatch_unmatched_path (policy_map : List (String × RegistrationRule))
    (path : String) (h : dictGet policy_map (stripSlashes path) = none) :
    dispatch policy_map path = .next := by
  unfold dispatch
  simp [h]

/-- Witness for C10: a policy map guarding only `greet` (with a token policy
and an always-false `is_authorized`, so any check would reject) passes a
request for `/hello/` straight through. -/
theorem dispatch_unmatched_path_witness :
    dispatch [("greet", ⟨.token, fun _ _ => false⟩)] "/hello/" = .next :=
  dispatch_unmatched_path [("greet", ⟨.token, fun _ _ => false⟩)] "/hello/" rfl

end Arrowhead
